import Mathlib

/-!
Shallow embedding of the xt_expr micro-expression evaluator
(extensions/xt_expr.c, extensions/xt_expr.h).

Machine integers are modelled as `Nat` with explicit reduction modulo
2^32 (`uintxp_t` is `uint32_t` in the default build).  The node struct
`xt_expr_micro` carries its raw slot contents; values are reduced
mod 2^32 at the points where the C code produces a `uintxp_t` value.
The evaluator `xt_expr_descend` mirrors the C function of the same
name, including:
  - line 117-122: LH resolution; note that the final branch of the C
    code reads `xt_expr_rvalue(skb, mx->rh)` (the RH slot), which the
    embedding reproduces verbatim;
  - line 131: the switch dispatches on `mx->op & XTEXPR_OPMASK` with
    `XTEXPR_OPMASK = 0xFF`, so the flag bits 6-7 of the u8 opcode are
    NOT stripped before dispatch;
  - lines 136-137: `lh / rh` and `lh % rh` with `rh == 0` are an
    undefined-behaviour divide trap in C, modelled as the outcome
    `EOut.trap`.
Running past the end of the expression block (reading a node the
buffer does not contain) is modelled as the outcome `EOut.oob`.
Evaluation additionally records the trace of identifiers passed to
`xt_expr_rvalue`, so that "which fields were resolved" is observable.
-/

def XTEXPR_OP_NONE : Nat := 0
def XTEXPR_OP_ADD : Nat := 1
def XTEXPR_OP_SUB : Nat := 2
def XTEXPR_OP_MUL : Nat := 3
def XTEXPR_OP_DIV : Nat := 4
def XTEXPR_OP_MOD : Nat := 5
def XTEXPR_OP_NEG : Nat := 6
def XTEXPR_OP_LT : Nat := 7
def XTEXPR_OP_LE : Nat := 8
def XTEXPR_OP_EQ : Nat := 9
def XTEXPR_OP_NE : Nat := 10
def XTEXPR_OP_GT : Nat := 11
def XTEXPR_OP_GE : Nat := 12
def XTEXPR_OP_LNOT : Nat := 13
def XTEXPR_OP_LAND : Nat := 14
def XTEXPR_OP_LOR : Nat := 15
def XTEXPR_OP_SHL : Nat := 16
def XTEXPR_OP_SHR : Nat := 17
def XTEXPR_OP_NOT : Nat := 18
def XTEXPR_OP_AND : Nat := 19
def XTEXPR_OP_OR : Nat := 20
def XTEXPR_OP_XOR : Nat := 21
def XTEXPR_OP_ASG : Nat := 22
def XTEXPR_OP_OFS : Nat := 23
def XTEXPR_OP_DEREF : Nat := 24
def XTEXPR_OP_IF : Nat := 25
def XTEXPR_OP_CASE : Nat := 26

def XTEXPR_OPMASK : Nat := 0xFF

def XTEXPR_LHIMM : Nat := 64
def XTEXPR_RHIMM : Nat := 128

def XTEXPR_TYPE_NONE : Nat := 0
def XTEXPR_TYPE_SUB : Nat := 1
def XTEXPR_TYPE_THIS : Nat := 2
def XTEXPR_TYPE_NFMARK : Nat := 3
def XTEXPR_TYPE_CTMARK : Nat := 4
def XTEXPR_TYPE_SECMARK : Nat := 5
def XTEXPR_TYPE_L2PROTO : Nat := 6
def XTEXPR_TYPE_L3PROTO : Nat := 7
def XTEXPR_TYPE_L4PROTO : Nat := 8
def XTEXPR_TYPE_L4OFFSET : Nat := 9

/-- 2^32: the modulus of the configured `uintxp_t` width (uint32_t). -/
def XTEXPR_M : Nat := 4294967296

/-- struct xt_expr_micro: one fixed-size node (u8 op, u32 lh, u32 rh). -/
structure xt_expr_micro where
  op : Nat
  lh : Nat
  rh : Nat
  deriving DecidableEq, Repr

/-- The part of the sk_buff context that xt_expr_rvalue reads:
packet mark, the conntrack entry's mark when attached, and the
layer-3 protocol value. -/
structure sk_buff where
  mark : Nat
  ctmark : Option Nat
  protocol : Nat
  deriving DecidableEq, Repr

/-- xt_expr_rvalue: resolve a field identifier against the context
(xt_expr.c lines 84-100).  Unmatched identifiers yield 0. -/
def xt_expr_rvalue (skb : sk_buff) (reg : Nat) : Nat :=
  if reg = XTEXPR_TYPE_NFMARK then skb.mark % XTEXPR_M
  else if reg = XTEXPR_TYPE_CTMARK then
    (match skb.ctmark with
     | some m => m % XTEXPR_M
     | none => 0)
  else if reg = XTEXPR_TYPE_L3PROTO then skb.protocol % XTEXPR_M
  else 0

/-- The switch statement of xt_expr_descend (lines 131-155), as a
function of the dispatched value `mx->op & XTEXPR_OPMASK` and the
resolved operands.  The DIV/MOD zero-divisor trap is handled by the
caller (`xt_expr_finish`), so here division is Nat division. -/
def applyOp (op lh rh : Nat) : Nat :=
  if op = XTEXPR_OP_NONE then lh
  else if op = XTEXPR_OP_ADD then (lh + rh) % XTEXPR_M
  else if op = XTEXPR_OP_SUB then (lh + (XTEXPR_M - rh % XTEXPR_M)) % XTEXPR_M
  else if op = XTEXPR_OP_MUL then (lh * rh) % XTEXPR_M
  else if op = XTEXPR_OP_DIV then lh / rh
  else if op = XTEXPR_OP_MOD then lh % rh
  else if op = XTEXPR_OP_NEG then (XTEXPR_M - lh % XTEXPR_M) % XTEXPR_M
  else if op = XTEXPR_OP_LT then if lh < rh then 1 else 0
  else if op = XTEXPR_OP_LE then if lh ≤ rh then 1 else 0
  else if op = XTEXPR_OP_EQ then if lh = rh then 1 else 0
  else if op = XTEXPR_OP_NE then if lh = rh then 0 else 1
  else if op = XTEXPR_OP_GT then if rh < lh then 1 else 0
  else if op = XTEXPR_OP_GE then if rh ≤ lh then 1 else 0
  else if op = XTEXPR_OP_LNOT then if lh = 0 then 1 else 0
  else if op = XTEXPR_OP_LAND then if lh ≠ 0 ∧ rh ≠ 0 then 1 else 0
  else if op = XTEXPR_OP_LOR then if lh ≠ 0 ∨ rh ≠ 0 then 1 else 0
  else if op = XTEXPR_OP_SHL then (lh <<< rh) % XTEXPR_M
  else if op = XTEXPR_OP_SHR then lh >>> rh
  else if op = XTEXPR_OP_NOT then (XTEXPR_M - 1) - lh % XTEXPR_M
  else if op = XTEXPR_OP_AND then lh &&& rh
  else if op = XTEXPR_OP_OR then lh ||| rh
  else if op = XTEXPR_OP_XOR then lh ^^^ rh
  else 0

/-- Outcome of evaluating (a prefix of) an expression block:
`ok value reads rest` carries the result value, the trace of
identifiers passed to xt_expr_rvalue, and the unconsumed suffix of
the buffer (the returned "walking pointer"); `trap` is the
divide-by-zero processor trap; `oob` is a read past the end of the
buffer. -/
inductive EOut where
  | ok : Nat → List Nat → List xt_expr_micro → EOut
  | trap : EOut
  | oob : EOut
  deriving DecidableEq, Repr

/-- The tail of xt_expr_descend after both operands are resolved:
the DIV/MOD zero-divisor trap, else the switch. -/
def xt_expr_finish (mx : xt_expr_micro) (lh rh : Nat) (reads : List Nat)
    (rest : List xt_expr_micro) : EOut :=
  if (mx.op &&& XTEXPR_OPMASK = XTEXPR_OP_DIV ∨
      mx.op &&& XTEXPR_OPMASK = XTEXPR_OP_MOD) ∧ rh = 0 then
    EOut.trap
  else
    EOut.ok (applyOp (mx.op &&& XTEXPR_OPMASK) lh rh) reads rest

/-- xt_expr_descend (xt_expr.c lines 111-158), on an explicit suffix
of the expression block.  `fuel` bounds the recursion depth; each
recursive call strictly shrinks the suffix, so `fuel = length` always
suffices (see `xt_expr_descend_mono`).  LH resolution (lines 117-122):
immediate, subexpression, or `xt_expr_rvalue(skb, mx->rh)` — the C
code passes the RH slot here.  RH resolution (lines 124-129) continues
on the suffix left over by LH resolution. -/
def xt_expr_descend : Nat → sk_buff → List xt_expr_micro → EOut
  | 0, _, _ => EOut.oob
  | _ + 1, _, [] => EOut.oob
  | fuel + 1, skb, mx :: rest =>
    match (if mx.op &&& XTEXPR_LHIMM ≠ 0 then
             EOut.ok (mx.lh % XTEXPR_M) [] rest
           else if mx.lh = XTEXPR_TYPE_SUB then
             xt_expr_descend fuel skb rest
           else
             EOut.ok (xt_expr_rvalue skb mx.rh) [mx.rh] rest) with
    | EOut.oob => EOut.oob
    | EOut.trap => EOut.trap
    | EOut.ok lh reads1 rest1 =>
      match (if mx.op &&& XTEXPR_RHIMM ≠ 0 then
               EOut.ok (mx.rh % XTEXPR_M) [] rest1
             else if mx.rh = XTEXPR_TYPE_SUB then
               xt_expr_descend fuel skb rest1
             else
               EOut.ok (xt_expr_rvalue skb mx.rh) [mx.rh] rest1) with
      | EOut.oob => EOut.oob
      | EOut.trap => EOut.trap
      | EOut.ok rh reads2 rest2 => xt_expr_finish mx lh rh (reads1 ++ reads2) rest2

/-- Top-level evaluation as performed by xt_expr_mt: start at node 0
of the whole block. -/
def xt_expr_evaluate (skb : sk_buff) (blk : List xt_expr_micro) : EOut :=
  xt_expr_descend blk.length skb blk

/-- The dry-run preorder walk: structurally identical to
xt_expr_descend's operand resolution but computing no values.  It
returns the trace of identifiers that evaluation would pass to
xt_expr_rvalue and the unconsumed suffix of the buffer. -/
def xt_expr_walk : Nat → List xt_expr_micro → Option (List Nat × List xt_expr_micro)
  | 0, _ => none
  | _ + 1, [] => none
  | fuel + 1, mx :: rest =>
    match (if mx.op &&& XTEXPR_LHIMM ≠ 0 then
             some (([] : List Nat), rest)
           else if mx.lh = XTEXPR_TYPE_SUB then
             xt_expr_walk fuel rest
           else
             some ([mx.rh], rest)) with
    | none => none
    | some (reads1, rest1) =>
      match (if mx.op &&& XTEXPR_RHIMM ≠ 0 then
               some (([] : List Nat), rest1)
             else if mx.rh = XTEXPR_TYPE_SUB then
               xt_expr_walk fuel rest1
             else
               some ([mx.rh], rest1)) with
      | none => none
      | some (reads2, rest2) => some (reads1 ++ reads2, rest2)

/-- A block is well-formed iff the dry-run preorder walk consumes it
exactly (no overrun, no leftover nodes). -/
def xt_expr_wellFormed (blk : List xt_expr_micro) : Prop :=
  Option.map (fun p => p.2) (xt_expr_walk blk.length blk) =
    some ([] : List xt_expr_micro)

instance xt_expr_wellFormed_decidable (blk : List xt_expr_micro) :
    Decidable (xt_expr_wellFormed blk) :=
  inferInstanceAs (Decidable (Option.map (fun p => p.2) (xt_expr_walk blk.length blk) =
    some ([] : List xt_expr_micro)))

/-- Projection of an outcome to its value-independent part: the
resolver-read trace and the returned cursor. -/
def shapeOf : EOut → Option (List Nat × List xt_expr_micro)
  | EOut.ok _ reads rest => some (reads, rest)
  | EOut.trap => none
  | EOut.oob => none

/- Concrete contexts and blocks used by the claims. -/

def skb0 : sk_buff := ⟨0, none, 0⟩

def skb5 : sk_buff := ⟨5, none, 0⟩

def skbAll : sk_buff := ⟨77, some 88, 99⟩

/-- The block of spec test case "field-resolving-to-5 plus immediate 1
via ADD": `{ADD|RHIMM, NFMARK, 1}`. -/
def c1blk : List xt_expr_micro :=
  [⟨XTEXPR_OP_ADD ||| XTEXPR_RHIMM, XTEXPR_TYPE_NFMARK, 1⟩]

/-- The block of spec test case "(1+2)+(3+4)":
`{ADD, SUB, SUB}, {ADD|LHIMM|RHIMM, 1, 2}, {ADD|LHIMM|RHIMM, 3, 4}`. -/
def c2blk : List xt_expr_micro :=
  [⟨XTEXPR_OP_ADD, XTEXPR_TYPE_SUB, XTEXPR_TYPE_SUB⟩,
   ⟨XTEXPR_OP_ADD ||| XTEXPR_LHIMM ||| XTEXPR_RHIMM, 1, 2⟩,
   ⟨XTEXPR_OP_ADD ||| XTEXPR_LHIMM ||| XTEXPR_RHIMM, 3, 4⟩]

/-- The block of spec test case "4+2": `{ADD|LHIMM|RHIMM, 4, 2}`. -/
def c3blk : List xt_expr_micro :=
  [⟨XTEXPR_OP_ADD ||| XTEXPR_LHIMM ||| XTEXPR_RHIMM, 4, 2⟩]

/-- A DIV node whose operands both resolve to 0 (both slots name
XTEXPR_TYPE_NONE, an unmatched identifier). -/
def c6blkDiv : List xt_expr_micro := [⟨XTEXPR_OP_DIV, 0, 0⟩]

/-- A MOD node whose operands both resolve to 0. -/
def c6blkMod : List xt_expr_micro := [⟨XTEXPR_OP_MOD, 0, 0⟩]

/-- A flag-free encoding of "0 - 1": SUB over two subexpressions, the
first evaluating to 0 (NONE over unmatched fields) and the second to 1
(EQ over two equal unmatched fields). -/
def c7blk : List xt_expr_micro :=
  [⟨XTEXPR_OP_SUB, XTEXPR_TYPE_SUB, XTEXPR_TYPE_SUB⟩,
   ⟨XTEXPR_OP_NONE, 0, 0⟩,
   ⟨XTEXPR_OP_EQ, 0, 0⟩]

/-- A single spare node used to extend a buffer past a block's end. -/
def c4ext : List xt_expr_micro := [⟨0, 0, 0⟩]

/-- A NEG node whose LH slot names NFMARK and whose RH slot also names
NFMARK. -/
def c8blkA : List xt_expr_micro :=
  [⟨XTEXPR_OP_NEG, XTEXPR_TYPE_NFMARK, XTEXPR_TYPE_NFMARK⟩]

/-- The same NEG node with only the RH slot changed (to TYPE_NONE). -/
def c8blkB : List xt_expr_micro :=
  [⟨XTEXPR_OP_NEG, XTEXPR_TYPE_NFMARK, XTEXPR_TYPE_NONE⟩]

/-! Helper lemmas. -/

/-- Fuel monotonicity: whenever `xt_expr_descend` completes (does not
run out of nodes/fuel) at some fuel, any larger fuel gives the same
outcome.  In particular `fuel = blk.length` is always enough to
determine the outcome of a block that evaluation actually consumes. -/
theorem xt_expr_descend_mono :
    ∀ (f m : Nat) (skb : sk_buff) (blk : List xt_expr_micro),
      f ≤ m →
      xt_expr_descend f skb blk ≠ EOut.oob →
      xt_expr_descend m skb blk = xt_expr_descend f skb blk := by
  intro f
  induction f with
  | zero =>
    intro m skb blk _ h
    exact absurd rfl h
  | succ n ih =>
    intro m skb blk hle h
    obtain ⟨k, rfl⟩ : ∃ k, m = k + 1 := ⟨m - 1, by omega⟩
    have hnk : n ≤ k := by omega
    cases blk with
    | nil => rfl
    | cons mx rest =>
      simp only [xt_expr_descend] at h ⊢
      by_cases h1 : mx.op &&& XTEXPR_LHIMM ≠ 0
      · simp only [if_pos h1] at h ⊢
        by_cases h2 : mx.op &&& XTEXPR_RHIMM ≠ 0
        · simp only [if_pos h2] at h ⊢
        · by_cases h3 : mx.rh = XTEXPR_TYPE_SUB
          · simp only [if_neg h2, if_pos h3] at h ⊢
            cases hs : xt_expr_descend n skb rest with
            | oob => rw [hs] at h; simp at h
            | trap =>
              rw [ih k skb rest hnk (by rw [hs]; simp), hs]
            | ok rh r2 rest2 =>
              rw [ih k skb rest hnk (by rw [hs]; simp), hs]
          · simp only [if_neg h2, if_neg h3] at h ⊢
      · by_cases h4 : mx.lh = XTEXPR_TYPE_SUB
        · simp only [if_neg h1, if_pos h4] at h ⊢
          cases hs : xt_expr_descend n skb rest with
          | oob => rw [hs] at h; simp at h
          | trap =>
            rw [ih k skb rest hnk (by rw [hs]; simp), hs]
          | ok lh r1 rest1 =>
            rw [ih k skb rest hnk (by rw [hs]; simp), hs]
            rw [hs] at h
            simp only at h ⊢
            by_cases h2 : mx.op &&& XTEXPR_RHIMM ≠ 0
            · simp only [if_pos h2] at h ⊢
            · by_cases h3 : mx.rh = XTEXPR_TYPE_SUB
              · simp only [if_neg h2, if_pos h3] at h ⊢
                cases hs2 : xt_expr_descend n skb rest1 with
                | oob => rw [hs2] at h; simp at h
                | trap =>
                  rw [ih k skb rest1 hnk (by rw [hs2]; simp), hs2]
                | ok rh r2 rest2 =>
                  rw [ih k skb rest1 hnk (by rw [hs2]; simp), hs2]
              · simp only [if_neg h2, if_neg h3] at h ⊢
        · simp only [if_neg h1, if_neg h4] at h ⊢
          by_cases h2 : mx.op &&& XTEXPR_RHIMM ≠ 0
          · simp only [if_pos h2] at h ⊢
          · by_cases h3 : mx.rh = XTEXPR_TYPE_SUB
            · simp only [if_neg h2, if_pos h3] at h ⊢
              cases hs : xt_expr_descend n skb rest with
              | oob => rw [hs] at h; simp at h
              | trap =>
                rw [ih k skb rest hnk (by rw [hs]; simp), hs]
              | ok rh r2 rest2 =>
                rw [ih k skb rest hnk (by rw [hs]; simp), hs]
            · simp only [if_neg h2, if_neg h3] at h ⊢

/-- Case split for the tail of a node's evaluation: appending extra
nodes after the unconsumed suffix changes neither the trap/ok outcome
nor the value. -/
theorem xt_expr_finish_cases (mx : xt_expr_micro) (lh rh : Nat) (reads : List Nat)
    (rest ext : List xt_expr_micro) :
    (xt_expr_finish mx lh rh reads (rest ++ ext) = EOut.trap ∧
     xt_expr_finish mx lh rh reads rest = EOut.trap) ∨
    ∃ v, xt_expr_finish mx lh rh reads (rest ++ ext) = EOut.ok v reads (rest ++ ext) ∧
         xt_expr_finish mx lh rh reads rest = EOut.ok v reads rest := by
  unfold xt_expr_finish
  by_cases hg : (mx.op &&& XTEXPR_OPMASK = XTEXPR_OP_DIV ∨
      mx.op &&& XTEXPR_OPMASK = XTEXPR_OP_MOD) ∧ rh = 0
  · exact Or.inl ⟨by rw [if_pos hg], by rw [if_pos hg]⟩
  · exact Or.inr ⟨applyOp (mx.op &&& XTEXPR_OPMASK) lh rh,
      by rw [if_neg hg], by rw [if_neg hg]⟩

/-- Correspondence between the dry-run walk and evaluation, with a
frame property: if the walk of a block prefix consumes it down to
`rest`, then evaluation of that prefix (inside any larger buffer
obtained by appending `ext`) either traps on a zero divisor, or
returns a value together with exactly the walk's resolver-read trace
and cursor — and the appended nodes influence nothing. -/
theorem xt_expr_walk_descend :
    ∀ (f : Nat) (blk : List xt_expr_micro) (reads : List Nat) (rest : List xt_expr_micro),
      xt_expr_walk f blk = some (reads, rest) →
      ∀ (skb : sk_buff) (ext : List xt_expr_micro),
        (xt_expr_descend f skb (blk ++ ext) = EOut.trap ∧
         xt_expr_descend f skb blk = EOut.trap) ∨
        ∃ v, xt_expr_descend f skb (blk ++ ext) = EOut.ok v reads (rest ++ ext) ∧
             xt_expr_descend f skb blk = EOut.ok v reads rest := by
  intro f
  induction f with
  | zero =>
    intro blk reads rest h
    simp [xt_expr_walk] at h
  | succ n ih =>
    intro blk reads rest h skb ext
    cases blk with
    | nil => simp [xt_expr_walk] at h
    | cons mx rest0 =>
      rw [List.cons_append]
      simp only [xt_expr_walk] at h
      simp only [xt_expr_descend]
      by_cases h1 : mx.op &&& XTEXPR_LHIMM ≠ 0
      · simp only [if_pos h1] at h ⊢
        by_cases h2 : mx.op &&& XTEXPR_RHIMM ≠ 0
        · simp only [if_pos h2] at h ⊢
          simp only [Option.some.injEq, Prod.mk.injEq] at h
          obtain ⟨hA, hB⟩ := h
          subst hA
          subst hB
          exact xt_expr_finish_cases mx _ _ _ _ ext
        · by_cases h3 : mx.rh = XTEXPR_TYPE_SUB
          · simp only [if_neg h2, if_pos h3] at h ⊢
            cases hW2 : xt_expr_walk n rest0 with
            | none => rw [hW2] at h; simp at h
            | some p =>
              obtain ⟨r2, rest2⟩ := p
              rw [hW2] at h
              simp only [Option.some.injEq, Prod.mk.injEq] at h
              obtain ⟨hA, hB⟩ := h
              subst hA
              subst hB
              rcases ih rest0 r2 rest2 hW2 skb ext with ⟨hTe, hTb⟩ | ⟨v2, hOe, hOb⟩
              · rw [hTe, hTb]
                exact Or.inl ⟨rfl, rfl⟩
              · rw [hOe, hOb]
                exact xt_expr_finish_cases mx _ _ _ _ ext
          · simp only [if_neg h2, if_neg h3] at h ⊢
            simp only [Option.some.injEq, Prod.mk.injEq] at h
            obtain ⟨hA, hB⟩ := h
            subst hA
            subst hB
            exact xt_expr_finish_cases mx _ _ _ _ ext
      · by_cases h4 : mx.lh = XTEXPR_TYPE_SUB
        · simp only [if_neg h1, if_pos h4] at h ⊢
          cases hW1 : xt_expr_walk n rest0 with
          | none => rw [hW1] at h; simp at h
          | some p =>
            obtain ⟨r1, rest1⟩ := p
            rw [hW1] at h
            rcases ih rest0 r1 rest1 hW1 skb ext with ⟨hTe, hTb⟩ | ⟨v1, hOe, hOb⟩
            · rw [hTe, hTb]
              exact Or.inl ⟨rfl, rfl⟩
            · rw [hOe, hOb]
              by_cases h2 : mx.op &&& XTEXPR_RHIMM ≠ 0
              · simp only [if_pos h2] at h ⊢
                simp only [Option.some.injEq, Prod.mk.injEq] at h
                obtain ⟨hA, hB⟩ := h
                subst hA
                subst hB
                exact xt_expr_finish_cases mx _ _ _ _ ext
              · by_cases h3 : mx.rh = XTEXPR_TYPE_SUB
                · simp only [if_neg h2, if_pos h3] at h ⊢
                  cases hW2 : xt_expr_walk n rest1 with
                  | none => rw [hW2] at h; simp at h
                  | some p2 =>
                    obtain ⟨r2, rest2⟩ := p2
                    rw [hW2] at h
                    simp only [Option.some.injEq, Prod.mk.injEq] at h
                    obtain ⟨hA, hB⟩ := h
                    subst hA
                    subst hB
                    rcases ih rest1 r2 rest2 hW2 skb ext with ⟨hTe2, hTb2⟩ | ⟨v2, hOe2, hOb2⟩
                    · rw [hTe2, hTb2]
                      exact Or.inl ⟨rfl, rfl⟩
                    · rw [hOe2, hOb2]
                      exact xt_expr_finish_cases mx _ _ _ _ ext
                · simp only [if_neg h2, if_neg h3] at h ⊢
                  simp only [Option.some.injEq, Prod.mk.injEq] at h
                  obtain ⟨hA, hB⟩ := h
                  subst hA
                  subst hB
                  exact xt_expr_finish_cases mx _ _ _ _ ext
        · simp only [if_neg h1, if_neg h4] at h ⊢
          by_cases h2 : mx.op &&& XTEXPR_RHIMM ≠ 0
          · simp only [if_pos h2] at h ⊢
            simp only [Option.some.injEq, Prod.mk.injEq] at h
            obtain ⟨hA, hB⟩ := h
            subst hA
            subst hB
            exact xt_expr_finish_cases mx _ _ _ _ ext
          · by_cases h3 : mx.rh = XTEXPR_TYPE_SUB
            · simp only [if_neg h2, if_pos h3] at h ⊢
              cases hW2 : xt_expr_walk n rest0 with
              | none => rw [hW2] at h; simp at h
              | some p =>
                obtain ⟨r2, rest2⟩ := p
                rw [hW2] at h
                simp only [Option.some.injEq, Prod.mk.injEq] at h
                obtain ⟨hA, hB⟩ := h
                subst hA
                subst hB
                rcases ih rest0 r2 rest2 hW2 skb ext with ⟨hTe, hTb⟩ | ⟨v2, hOe, hOb⟩
                · rw [hTe, hTb]
                  exact Or.inl ⟨rfl, rfl⟩
                · rw [hOe, hOb]
                  exact xt_expr_finish_cases mx _ _ _ _ ext
            · simp only [if_neg h2, if_neg h3] at h ⊢
              simp only [Option.some.injEq, Prod.mk.injEq] at h
              obtain ⟨hA, hB⟩ := h
              subst hA
              subst hB
              exact xt_expr_finish_cases mx _ _ _ _ ext

/-- The switch's default case: any dispatched value above the last
enum member XTEXPR_OP_CASE matches no case label, so `ret = 0`. -/
theorem applyOp_unknown (op lh rh : Nat) (h : XTEXPR_OP_CASE < op) :
    applyOp op lh rh = 0 := by
  have h21 : 21 < op := by
    simp only [XTEXPR_OP_CASE] at h
    omega
  simp only [applyOp, XTEXPR_OP_NONE, XTEXPR_OP_ADD, XTEXPR_OP_SUB, XTEXPR_OP_MUL,
    XTEXPR_OP_DIV, XTEXPR_OP_MOD, XTEXPR_OP_NEG, XTEXPR_OP_LT, XTEXPR_OP_LE,
    XTEXPR_OP_EQ, XTEXPR_OP_NE, XTEXPR_OP_GT, XTEXPR_OP_GE, XTEXPR_OP_LNOT,
    XTEXPR_OP_LAND, XTEXPR_OP_LOR, XTEXPR_OP_SHL, XTEXPR_OP_SHR, XTEXPR_OP_NOT,
    XTEXPR_OP_AND, XTEXPR_OP_OR, XTEXPR_OP_XOR]
  repeat rw [if_neg (by omega)]

/-! Claim theorems. -/

/-- C1: the claim states that a non-immediate, non-sentinel LH slot is
resolved as `context.read_field(node.lh)`, and that the single-node
block `{ADD|RHIMM, field, 1}` with the field resolving to 5 evaluates
to 6.  On the code this fails: the LH branch passes `mx->rh` (here 1)
to the resolver, which yields 0, and the switch dispatches on op byte
129 (flags not stripped by OPMASK = 0xFF), hitting the default case —
so the block evaluates to 0 for EVERY context, the LH field identifier
never reaching the resolver (read trace is [1], the RH slot). -/
theorem C1_lh_resolved_from_rh_slot :
    ∀ skb : sk_buff, xt_expr_evaluate skb c1blk = EOut.ok 0 [1] [] :=
  fun _ => rfl

/-- C2: the claim states the nested block {ADD,SUB,SUB},
{ADD|LHIMM|RHIMM,1,2}, {ADD|LHIMM|RHIMM,3,4} evaluates to 10 for every
context.  On the code both leaf nodes dispatch on op byte 193
(ADD|LHIMM|RHIMM; OPMASK = 0xFF keeps the flag bits), hit the switch
default and yield 0, so the whole block evaluates to 0 + 0 = 0 for
every context (the left-to-right cursor discipline itself does hold:
the block is consumed exactly, rest = []). -/
theorem C2_nested_block_yields_zero :
    ∀ skb : sk_buff, xt_expr_evaluate skb c2blk = EOut.ok 0 [] [] :=
  fun _ => rfl

/-- C3: the claim states a single-node block with both immediate flags
set evaluates per the operator table, e.g. {ADD|LHIMM|RHIMM,4,2} gives
6.  On the code the switch dispatches on `op & 0xFF` = 193, which is no
case label, so the result is the default 0, not 6 — for every
context. -/
theorem C3_both_imm_add_yields_zero :
    ∀ skb : sk_buff, xt_expr_evaluate skb c3blk = EOut.ok 0 [] [] :=
  fun _ => rfl

/-- C6: the claim states DIV/MOD with a zero right-hand operand raises
a recoverable DivisionByZero evaluation failure.  The code has no such
path: it executes `lh / rh` (resp. `lh % rh`) unguarded, an
undefined-behaviour divide trap, modelled as the non-recoverable
outcome `EOut.trap`. -/
theorem C6_div_mod_by_zero_traps :
    ∀ skb : sk_buff,
      xt_expr_evaluate skb c6blkDiv = EOut.trap ∧
      xt_expr_evaluate skb c6blkMod = EOut.trap :=
  fun _ => ⟨rfl, rfl⟩

/-- C8: the claim states that for unary operators (here NEG) the RH
operand slot is ignored, the result depending only on the resolved LH
operand.  On the code this fails: with a non-immediate LH naming
NFMARK, changing only the RH slot from NFMARK (3) to TYPE_NONE (0)
changes the result from -5 mod 2^32 = 4294967291 to 0 (and the read
trace from [3,3] to [0,0]), because line 122 resolves the LH variable
by passing the RH slot to xt_expr_rvalue. -/
theorem C8_unary_rh_slot_changes_result :
    xt_expr_evaluate skb5 c8blkA = EOut.ok 4294967291 [3, 3] [] ∧
    xt_expr_evaluate skb5 c8blkB = EOut.ok 0 [0, 0] [] :=
  ⟨rfl, rfl⟩

/-- C10: any field identifier other than the three implemented ones
(NFMARK, CTMARK, L3PROTO) — including the declared-but-unimplemented
THIS, SECMARK, L2PROTO, L4PROTO, L4OFFSET — falls to the resolver's
default case and yields 0, for every context. -/
theorem C10_unknown_field_yields_zero (skb : sk_buff) (reg : Nat)
    (h1 : reg ≠ XTEXPR_TYPE_NFMARK) (h2 : reg ≠ XTEXPR_TYPE_CTMARK)
    (h3 : reg ≠ XTEXPR_TYPE_L3PROTO) :
    xt_expr_rvalue skb reg = 0 := by
  unfold xt_expr_rvalue
  rw [if_neg h1, if_neg h2, if_neg h3]

/-- C10 witness: SECMARK is declared in the field-type enumeration but
unimplemented; even on a context with all fields nonzero it resolves
to 0. -/
theorem C10_unknown_field_yields_zero_witness :
    XTEXPR_TYPE_SECMARK ≠ XTEXPR_TYPE_NFMARK ∧
    xt_expr_rvalue skbAll XTEXPR_TYPE_SECMARK = 0 :=
  ⟨by decide,
   C10_unknown_field_yields_zero skbAll XTEXPR_TYPE_SECMARK (by decide) (by decide)
     (by decide)⟩

/-- C9: a node whose dispatched opcode value lies above the last
defined operator (XTEXPR_OP_CASE) matches no switch case, so whenever
evaluation of such a node completes (both operands having been
resolved by the opcode-independent resolution code), the node's
result value is the silent default 0 — for every context, fuel, and
operand values. -/
theorem C9_unknown_opcode_silent_zero (fuel : Nat) (skb : sk_buff)
    (mx : xt_expr_micro) (rest : List xt_expr_micro)
    (hop : XTEXPR_OP_CASE < mx.op &&& XTEXPR_OPMASK) :
    ∀ v reads rest1, xt_expr_descend fuel skb (mx :: rest) = EOut.ok v reads rest1 →
      v = 0 := by
  intro v reads rest1 h
  cases fuel with
  | zero => simp [xt_expr_descend] at h
  | succ n =>
    simp only [xt_expr_descend] at h
    split at h
    · exact EOut.noConfusion h
    · exact EOut.noConfusion h
    · split at h
      · exact EOut.noConfusion h
      · exact EOut.noConfusion h
      · unfold xt_expr_finish at h
        split at h
        · exact EOut.noConfusion h
        · simp only [EOut.ok.injEq] at h
          obtain ⟨hv, _, _⟩ := h
          subst hv
          exact applyOp_unknown _ _ _ hop

/-- C9 witness: the node {op 40, lh 7, rh 7} resolves both operands
(two resolver reads of identifier 7) and yields 0. -/
theorem C9_unknown_opcode_silent_zero_witness :
    XTEXPR_OP_CASE < 40 &&& XTEXPR_OPMASK ∧ (0 : Nat) = 0 :=
  ⟨by decide,
   C9_unknown_opcode_silent_zero 1 skb0 ⟨40, 7, 7⟩ [] (by decide) 0 [7, 7] []
     (by decide)⟩

/-- C4: for a well-formed block (one the dry-run preorder walk
consumes exactly), top-level evaluation from node 0 never reads at or
past the block's end: evaluated inside any larger buffer
`blk ++ ext`, it produces the same outcome as on `blk` alone — the
same value and resolver reads with the cursor stopping exactly at the
appended part (i.e. next index = n), or in both cases the
divide-by-zero trap. -/
theorem C4_wellformed_toplevel_cursor (blk : List xt_expr_micro)
    (h : xt_expr_wellFormed blk) (skb : sk_buff) (ext : List xt_expr_micro) :
    (xt_expr_descend (blk ++ ext).length skb (blk ++ ext) = EOut.trap ∧
     xt_expr_evaluate skb blk = EOut.trap) ∨
    ∃ v reads,
      xt_expr_descend (blk ++ ext).length skb (blk ++ ext) = EOut.ok v reads ext ∧
      xt_expr_evaluate skb blk = EOut.ok v reads [] := by
  unfold xt_expr_wellFormed at h
  cases hW : xt_expr_walk blk.length blk with
  | none => rw [hW] at h; simp at h
  | some p =>
    obtain ⟨reads, rest⟩ := p
    rw [hW] at h
    simp at h
    subst h
    rcases xt_expr_walk_descend blk.length blk reads [] hW skb ext with
      ⟨hTe, hTb⟩ | ⟨v, hOe, hOb⟩
    · refine Or.inl ⟨?_, hTb⟩
      rw [xt_expr_descend_mono blk.length (blk ++ ext).length skb (blk ++ ext)
        (by rw [List.length_append]; omega)
        (by rw [hTe]; exact fun hc => EOut.noConfusion hc)]
      exact hTe
    · rw [List.nil_append] at hOe
      refine Or.inr ⟨v, reads, ?_, hOb⟩
      rw [xt_expr_descend_mono blk.length (blk ++ ext).length skb (blk ++ ext)
        (by rw [List.length_append]; omega)
        (by rw [hOe]; exact fun hc => EOut.noConfusion hc)]
      exact hOe

/-- C4 witness: the well-formed three-node block of C2, with one extra
node appended after it; evaluation stops exactly at the appended
node. -/
theorem C4_wellformed_toplevel_cursor_witness :
    xt_expr_wellFormed c2blk ∧
    ((xt_expr_descend (c2blk ++ c4ext).length skb0 (c2blk ++ c4ext) = EOut.trap ∧
      xt_expr_evaluate skb0 c2blk = EOut.trap) ∨
     ∃ v reads,
       xt_expr_descend (c2blk ++ c4ext).length skb0 (c2blk ++ c4ext) =
         EOut.ok v reads c4ext ∧
       xt_expr_evaluate skb0 c2blk = EOut.ok v reads []) :=
  ⟨by decide, C4_wellformed_toplevel_cursor c2blk (by decide) skb0 c4ext⟩

/-- C5: operand resolution never inspects the opcode bits below the
flag bits, so a node whose dispatched opcode is LAND or LOR resolves
both operands — consuming any subexpression subtree on either side
and performing the same resolver reads — exactly like a node (same
slots, same flags) whose opcode is ADD, for which both operands
matter: the read trace and returned cursor coincide. -/
theorem C5_land_lor_always_resolve_both (fuel : Nat) (skb : sk_buff)
    (a b l r : Nat) (rest : List xt_expr_micro)
    (hf1 : a &&& XTEXPR_LHIMM = b &&& XTEXPR_LHIMM)
    (hf2 : a &&& XTEXPR_RHIMM = b &&& XTEXPR_RHIMM)
    (hop : a &&& XTEXPR_OPMASK = XTEXPR_OP_LAND ∨ a &&& XTEXPR_OPMASK = XTEXPR_OP_LOR)
    (hopb : b &&& XTEXPR_OPMASK = XTEXPR_OP_ADD) :
    shapeOf (xt_expr_descend fuel skb (⟨a, l, r⟩ :: rest)) =
      shapeOf (xt_expr_descend fuel skb (⟨b, l, r⟩ :: rest)) := by
  cases fuel with
  | zero => rfl
  | succ n =>
    simp only [xt_expr_descend]
    rw [hf1, hf2]
    generalize (if b &&& XTEXPR_LHIMM ≠ 0 then
        EOut.ok (l % XTEXPR_M) [] rest
      else if l = XTEXPR_TYPE_SUB then
        xt_expr_descend n skb rest
      else
        EOut.ok (xt_expr_rvalue skb r) [r] rest) = S
    cases S with
    | oob => rfl
    | trap => rfl
    | ok lh r1 rest1 =>
      dsimp only
      generalize (if b &&& XTEXPR_RHIMM ≠ 0 then
          EOut.ok (r % XTEXPR_M) [] rest1
        else if r = XTEXPR_TYPE_SUB then
          xt_expr_descend n skb rest1
        else
          EOut.ok (xt_expr_rvalue skb r) [r] rest1) = S2
      cases S2 with
      | oob => rfl
      | trap => rfl
      | ok rh r2 rest2 =>
        dsimp only
        rcases hop with hop | hop <;>
          simp [xt_expr_finish, hop, hopb, shapeOf, XTEXPR_OP_LAND, XTEXPR_OP_LOR,
            XTEXPR_OP_ADD, XTEXPR_OP_DIV, XTEXPR_OP_MOD]

/-- C5 witness: a LAND node with immediate-free LH resolving to 0 and
an RH subexpression; the subtree is still evaluated (resolver reads
[1, 3, 3]) and the cursor still consumes it, exactly as for the
corresponding ADD node. -/
theorem C5_land_lor_always_resolve_both_witness :
    (14 : Nat) &&& XTEXPR_OPMASK = XTEXPR_OP_LAND ∧
    shapeOf (xt_expr_descend 2 skb5 [⟨14, 0, 1⟩, ⟨0, 3, 3⟩]) =
      shapeOf (xt_expr_descend 2 skb5 [⟨1, 0, 1⟩, ⟨0, 3, 3⟩]) :=
  ⟨by decide,
   C5_land_lor_always_resolve_both 2 skb5 14 1 0 1 [⟨0, 3, 3⟩] (by decide) (by decide)
     (Or.inl (by decide)) (by decide)⟩

/-- C7: the arithmetic cases of the switch compute on the 32-bit
unsigned type with wraparound: ADD, SUB, MUL and NEG equal the exact
integer result reduced modulo 2^32 = 4294967296; and the evaluator
run on a block computing 0 - 1 (via flag-free subexpressions) yields
4294967295 = 2^32 - 1. -/
theorem C7_arith_wraps_mod_2_32 :
    (∀ lh rh : Nat,
      applyOp XTEXPR_OP_ADD lh rh = (((lh : Int) + (rh : Int)) % 4294967296).toNat) ∧
    (∀ lh rh : Nat,
      applyOp XTEXPR_OP_SUB lh rh = (((lh : Int) - (rh : Int)) % 4294967296).toNat) ∧
    (∀ lh rh : Nat,
      applyOp XTEXPR_OP_MUL lh rh = (((lh : Int) * (rh : Int)) % 4294967296).toNat) ∧
    (∀ lh rh : Nat,
      applyOp XTEXPR_OP_NEG lh rh = ((-(lh : Int)) % 4294967296).toNat) ∧
    xt_expr_evaluate skb0 c7blk = EOut.ok 4294967295 [0, 0, 0, 0] [] := by
  refine ⟨?_, ?_, ?_, ?_, by decide⟩
  · intro lh rh
    norm_num [applyOp, XTEXPR_OP_NONE, XTEXPR_OP_ADD, XTEXPR_M]
    omega
  · intro lh rh
    norm_num [applyOp, XTEXPR_OP_NONE, XTEXPR_OP_ADD, XTEXPR_OP_SUB, XTEXPR_M]
    omega
  · intro lh rh
    norm_num [applyOp, XTEXPR_OP_NONE, XTEXPR_OP_ADD, XTEXPR_OP_SUB, XTEXPR_OP_MUL,
      XTEXPR_M]
    have hcast : ((lh : Int) * (rh : Int)) = ((lh * rh : Nat) : Int) := by
      push_cast
      ring
    rw [hcast]
    generalize (lh * rh : Nat) = k
    omega
  · intro lh rh
    norm_num [applyOp, XTEXPR_OP_NONE, XTEXPR_OP_ADD, XTEXPR_OP_SUB, XTEXPR_OP_MUL,
      XTEXPR_OP_DIV, XTEXPR_OP_MOD, XTEXPR_OP_NEG, XTEXPR_M]
    omega
